import Mathlib

/-!
Verification of the OpenStreetMap data-wrangling project (`clean_osm.py`,
`convertToCSV.py`) against its natural-language specification.

The Python code is shallowly embedded: strings are Lean `String`s (lists of
characters), Python dictionaries are association lists in source order, and
each regular expression used by the code is transcribed as an explicit
backtracking matcher over `List Char` whose choice-point order follows the
Python `re` engine (leftmost match, greedy quantifiers, alternatives in
written order).  `re.sub` is modelled by a left-to-right scanner that
replaces every non-overlapping match.
-/

namespace OSM

/-! ## Basic character and string helpers (Python semantics) -/

/-- Python `str.isspace` / regex `\s` character class: space, tab, newline,
carriage return, vertical tab, form feed. -/
def isSpaceChar (c : Char) : Bool :=
  c = ' ' || c = '\t' || c = '\n' || c = '\r' || c = Char.ofNat 11 || c = Char.ofNat 12

/-- Regex `\w` word character for Python 2 `str` patterns (ASCII):
letters, digits, underscore. -/
def isWordChar (c : Char) : Bool :=
  c.isLower || c.isUpper || c.isDigit || c = '_'

/-- Regex `\b` word boundary between an optional previous and next character
(`none` at the ends of the string counts as a non-word character). -/
def boundaryB (prev next : Option Char) : Bool :=
  (match prev with | some c => isWordChar c | none => false)
    != (match next with | some c => isWordChar c | none => false)

/-- Python substring test `needle in hay` on character lists. -/
def containsSub (needle : List Char) : List Char → Bool
  | [] => needle.isEmpty
  | c :: rest => needle.isPrefixOf (c :: rest) || containsSub needle rest

/-- Python substring test `needle in hay` on strings. -/
def strContains (hay needle : String) : Bool :=
  containsSub needle.data hay.data

/-- Python dictionary subscript `m[k]` for a dictionary represented as an
association list in source order; `none` models a `KeyError`. -/
def dictGet (m : List (String × String)) (k : String) : Option String :=
  match m with
  | [] => none
  | (k', v) :: rest => if k' = k then some v else dictGet rest k

/-- Helper for `capwords`: split on whitespace runs, dropping empty pieces
(Python `str.split()` with no argument); `acc` is the current word reversed. -/
def splitWSAux : List Char → List Char → List (List Char)
  | [], acc => if acc.isEmpty then [] else [acc.reverse]
  | c :: cs, acc =>
    if isSpaceChar c then
      if acc.isEmpty then splitWSAux cs [] else acc.reverse :: splitWSAux cs []
    else splitWSAux cs (c :: acc)

/-- Python `str.capitalize`: first character uppercased, the rest lowercased. -/
def capitalizeW : List Char → List Char
  | [] => []
  | c :: cs => c.toUpper :: cs.map Char.toLower

/-- Python `string.capwords(s)`: split on whitespace, capitalize each word,
join with single spaces. -/
def capwords (s : String) : String :=
  String.mk (List.intercalate [' '] ((splitWSAux s.data []).map capitalizeW))

/-- Python `str.strip()`: remove leading and trailing whitespace. -/
def pyStrip (l : List Char) : List Char :=
  ((l.dropWhile isSpaceChar).reverse.dropWhile isSpaceChar).reverse

/-- Python `str.split(c)` keeping empty parts. -/
def splitOnChar (c : Char) (l : List Char) : List (List Char) :=
  l.foldr
    (fun x acc =>
      match acc with
      | cur :: rest => if x = c then [] :: cur :: rest else (x :: cur) :: rest
      | [] => [[x]])
    [[]]

/-! ## cleanOSM.clean_value and cleanOSM.set_to_none (clean_osm.py 35-53) -/

/-- Transcribes `cleanOSM.clean_value`: if the dirty value is a key of the
mapping dictionary return the mapped value, else return the dirty value.
The Python membership test `in self.mapping.keys()` followed by the
subscript `self.mapping[...]` is modelled by the same membership test and
`dictGet` (the `getD` default is unreachable, see `cleanValueE`). -/
def clean_value (mapping : List (String × String)) (dirty_value : String) : String :=
  if (mapping.map Prod.fst).contains dirty_value then
    (dictGet mapping dirty_value).getD dirty_value
  else dirty_value

/-- Transcribes `cleanOSM.set_to_none`: always the literal string None. -/
def set_to_none : String := "None"

/-! ## cleanOSM.is_expected_city and cleanOSM.clean_city_name (clean_osm.py 265-312) -/

/-- Transcribes `cleanOSM.is_expected_city`: return the first expected city
name occurring as a substring of the title-cased dirty value, as a pair
(found, match), or (False, empty) when none occurs. -/
def is_expected_city (expected_values : List String) (dirty_value : String) :
    Bool × String :=
  match expected_values.find? (fun value => strContains (capwords dirty_value) value) with
  | some value => (true, value)
  | none => (false, "")

/-- Transcribes the regex `^[a-z|A-Z]+.` used in `clean_city_name`
(`regex_english`): one or more characters from the class letters-or-bar,
followed by one arbitrary non-newline character.  `dotAfterRun` is the
continuation after at least one class character has been consumed. -/
def englishChar (c : Char) : Bool := c.isLower || c.isUpper || c = '|'

/-- Continuation of `regex_english` after one or more class characters:
either the wildcard consumes the next character, or the run extends. -/
def dotAfterRun : List Char → Bool
  | [] => false
  | c :: rest => (c != '\n') || (englishChar c && dotAfterRun rest)

/-- Search for `regex_english` (anchored at the start by `^`). -/
def englishSearch : List Char → Bool
  | [] => false
  | c :: rest => englishChar c && dotAfterRun rest

/-- The fixed list `wrong_entry` from `clean_city_name`. -/
def wrong_entry : List String := ["town", "ME-12", "AE", "San Diego, CA"]

/-- Transcribes `cleanOSM.clean_city_name` (clean_osm.py 281-312). -/
def clean_city_name (mapping : List (String × String)) (expected_values : List String)
    (dirty_value : String) : String :=
  let city_status := is_expected_city expected_values dirty_value
  if city_status.1 then city_status.2
  else if (mapping.map Prod.fst).contains dirty_value then clean_value mapping dirty_value
  else if englishSearch dirty_value.data then
    if wrong_entry.contains dirty_value then set_to_none
    else capwords dirty_value
  else set_to_none

/-! ## Generic re.sub / re.search scanners

A matcher `try_ rev suf` attempts to match its regex with the reversed
already-scanned prefix `rev` (used for word boundaries and lookbehinds) and
the remaining suffix `suf`; on success it returns the number of consumed
characters together with the replacement text for that match.  All regexes
of this program match at least one character; a zero-length result is
treated as no match so the scanner always advances. -/

/-- Replace every non-overlapping leftmost match, scanning left to right
(the semantics of `re.sub`).  `fuel` bounds the number of scanning steps;
it is always called with `length + 1`, which suffices because every step
consumes at least one character. -/
def subScan (try_ : List Char → List Char → Option (Nat × List Char)) :
    Nat → List Char → List Char → List Char
  | 0, _, _ => []
  | _ + 1, _, [] => []
  | fuel + 1, rev, c :: rest =>
    match try_ rev (c :: rest) with
    | some (n + 1, rep) =>
      rep ++ subScan try_ fuel ((List.take (n + 1) (c :: rest)).reverse ++ rev) (List.drop n rest)
    | _ => c :: subScan try_ fuel (c :: rev) rest

/-- Does the regex match anywhere (the semantics of `re.search`)? -/
def searchScan (try_ : List Char → List Char → Option (Nat × List Char)) :
    Nat → List Char → List Char → Bool
  | 0, _, _ => false
  | _ + 1, _, [] => false
  | fuel + 1, rev, c :: rest =>
    (try_ rev (c :: rest)).isSome || searchScan try_ fuel (c :: rev) rest

/-- The backquote character (used by the pattern of `update_street_name`). -/
def backquoteChar : Char := Char.ofNat 96

/-! ## cleanOSM.update_street_name (clean_osm.py 56-78) -/

/-- One pattern character of the regex built from a mapping key by
`update_street_name`.  The key is spliced into the pattern verbatim, so a
period inside a key acts as the regex wildcard; the keys of this program
contain no other metacharacter. -/
def patCharMatch (p c : Char) : Bool :=
  if p = '.' then c != '\n' else p = c

/-- Match the spliced key against a prefix of the suffix, returning the
remaining characters. -/
def matchKeyChars : List Char → List Char → Option (List Char)
  | [], suf => some suf
  | _ :: _, [] => none
  | p :: ps, c :: cs => if patCharMatch p c then matchKeyChars ps cs else none

/-- Matcher for the regex built by `update_street_name` from a key:
a word boundary, the key, a word boundary, then optionally a period or a
backquote (greedy). -/
def tryKeyAt (key : List Char) (rev suf : List Char) : Option Nat :=
  if boundaryB rev.head? suf.head? then
    match matchKeyChars key suf with
    | some rest =>
      if boundaryB (suf.take key.length).getLast? rest.head? then
        some (key.length +
          (match rest.head? with
           | some c => if c = '.' || c = backquoteChar then 1 else 0
           | none => 0))
      else none
    | none => none
  else none

/-- The `re.sub` call of `update_street_name` for one key and its mapped
replacement value. -/
def subKey (key val dirty : String) : String :=
  String.mk (subScan (fun rev suf => (tryKeyAt key.data rev suf).map (fun n => (n, val.data)))
    (dirty.data.length + 1) [] dirty.data)

/-- The `re.search` call of `update_street_name` for one key. -/
def searchKey (key dirty : String) : Bool :=
  searchScan (fun rev suf => (tryKeyAt key.data rev suf).map (fun n => (n, [])))
    (dirty.data.length + 1) [] dirty.data

/-- Transcribes `cleanOSM.update_street_name` (clean_osm.py 56-78): iterate
over the mapping; whenever the key occurs as a substring of the dirty value
and its whole-word regex matches, assign the substitution applied to the
original dirty value.  (The source substitutes into `self.dirty_value`,
not into the accumulator, on every iteration.) -/
def update_street_name (mapping : List (String × String)) (dirty_value : String) : String :=
  mapping.foldl
    (fun clean_value kv =>
      if strContains dirty_value kv.1 then
        if searchKey kv.1 dirty_value then subKey kv.1 kv.2 dirty_value else clean_value
      else clean_value)
    dirty_value

/-! ## cleanOSM.remove_brackets (clean_osm.py 152-164)

Regex `\(?(\d{1,2})(th|rd|st|TH|nd)\)?`, replaced by the digit group. -/

/-- Match one of the ordinal suffix alternatives, returning the remaining
characters. -/
def ordSuffix : List Char → Option (List Char)
  | 't' :: 'h' :: r => some r
  | 'r' :: 'd' :: r => some r
  | 's' :: 't' :: r => some r
  | 'T' :: 'H' :: r => some r
  | 'n' :: 'd' :: r => some r
  | _ => none

/-- Length contributed by the optional closing parenthesis. -/
def closeParen : List Char → Nat
  | ')' :: _ => 1
  | _ => 0

/-- Core of the `remove_brackets` matcher after the optional opening
parenthesis: one or two digits (greedy), an ordinal suffix, an optional
closing parenthesis.  Returns consumed length and the digit group. -/
def tryBracketsCore : List Char → Option (Nat × List Char)
  | a :: b :: r =>
    if a.isDigit then
      if b.isDigit then
        match ordSuffix r with
        | some r2 => some (4 + closeParen r2, [a, b])
        | none =>
          match ordSuffix (b :: r) with
          | some r2 => some (3 + closeParen r2, [a])
          | none => none
      else
        match ordSuffix (b :: r) with
        | some r2 => some (3 + closeParen r2, [a])
        | none => none
    else none
  | _ => none

/-- Matcher for the `remove_brackets` regex (the opening parenthesis is
optional; no backtracking is needed because a parenthesis is not a digit). -/
def tryBrackets (_rev suf : List Char) : Option (Nat × List Char) :=
  match suf with
  | '(' :: r => (tryBracketsCore r).map (fun p => (p.1 + 1, p.2))
  | r => tryBracketsCore r

/-- Transcribes `cleanOSM.remove_brackets`. -/
def remove_brackets (name : String) : String :=
  if searchScan tryBrackets (name.data.length + 1) [] name.data then
    String.mk (subScan tryBrackets (name.data.length + 1) [] name.data)
  else name

/-! ## cleanOSM.street_letter_to_uppercase_and_removegap (clean_osm.py 91-107)

Regex `(\d{1,2})\s?\-?([a-z|A-Z]{1,2})\b`; the replacement `replfunc`
concatenates the digit group with the uppercased letter group and strips
surrounding whitespace. -/

/-- The character class `[a-z|A-Z]` (letters or the bar written in the
source class). -/
def isLetterBar (c : Char) : Bool := c.isLower || c.isUpper || c = '|'

/-- The replacement `replfunc`: digit group, uppercased letter group,
stripped. -/
def replfunc (g1 g2 : List Char) : List Char :=
  pyStrip (g1 ++ g2.map Char.toUpper)

/-- Letter part `([a-z|A-Z]{1,2})\b` of the gap-removal regex: two letters
(greedy) or one, followed by a word boundary. -/
def tryLettersAfter (g1 : List Char) : List Char → Option (Nat × List Char)
  | a :: b :: r =>
    if isLetterBar a && isLetterBar b && boundaryB (some b) r.head? then
      some (2, replfunc g1 [a, b])
    else if isLetterBar a && boundaryB (some a) (some b) then
      some (1, replfunc g1 [a])
    else none
  | [a] =>
    if isLetterBar a && boundaryB (some a) none then some (1, replfunc g1 [a]) else none
  | [] => none

/-- Optional separator part `\s?\-?` of the gap-removal regex, with the
backtracking order of the engine: space-and-hyphen, space, hyphen, none. -/
def afterDigitsSL (g1 : List Char) (s : List Char) : Option (Nat × List Char) :=
  (match s with
   | c :: r =>
     if isSpaceChar c then
       (match r with
        | '-' :: r2 => (tryLettersAfter g1 r2).map (fun p => (2 + p.1, p.2))
        | _ => none)
       <|> (tryLettersAfter g1 r).map (fun p => (1 + p.1, p.2))
     else none
   | [] => none)
  <|> (match s with
       | '-' :: r2 => (tryLettersAfter g1 r2).map (fun p => (1 + p.1, p.2))
       | _ => none)
  <|> tryLettersAfter g1 s

/-- Matcher for the gap-removal regex: one or two digits (greedy), the
optional separators, the letter group. -/
def trySL (_rev suf : List Char) : Option (Nat × List Char) :=
  match suf with
  | a :: rest =>
    if a.isDigit then
      (match rest with
       | b :: r2 =>
         if b.isDigit then (afterDigitsSL [a, b] r2).map (fun p => (2 + p.1, p.2)) else none
       | [] => none)
      <|> (afterDigitsSL [a] rest).map (fun p => (1 + p.1, p.2))
    else none
  | [] => none

/-- Transcribes `cleanOSM.street_letter_to_uppercase_and_removegap`. -/
def street_letter_to_uppercase_and_removegap (name : String) : String :=
  if searchScan trySL (name.data.length + 1) [] name.data then
    String.mk (subScan trySL (name.data.length + 1) [] name.data)
  else name

/-! ## cleanOSM.switch_digit_position (clean_osm.py 121-134)

Regex `\b([A-Z])(\d{1,2})\b`; the replacement `switchfunc(m, 1, 0)` puts
the digit group before the uppercased letter group. -/

/-- Matcher for the digit-switch regex. -/
def trySwitch (rev suf : List Char) : Option (Nat × List Char) :=
  match suf with
  | a :: rest =>
    if a.isUpper && boundaryB rev.head? (some a) then
      match rest with
      | b :: r2 =>
        if b.isDigit then
          (match r2 with
           | c :: r3 =>
             if c.isDigit && boundaryB (some c) r3.head? then
               some (3, [b, c, a.toUpper])
             else none
           | [] => none)
          <|> (if boundaryB (some b) r2.head? then some (2, [b, a.toUpper]) else none)
        else none
      | [] => none
    else none
  | [] => none

/-- Transcribes `cleanOSM.switch_digit_position`. -/
def switch_digit_position (name : String) : String :=
  if searchScan trySwitch (name.data.length + 1) [] name.data then
    String.mk (subScan trySwitch (name.data.length + 1) [] name.data)
  else name

/-! ## cleanOSM.remove_hypen_space_and_switch (clean_osm.py 137-149)

Regex `(?<!(Plot No\. ))([A-Z])[\-|\s](\d{1,2})\b`; the replacement
`switchfunc(m, 2, 1)` puts the digit group before the uppercased letter. -/

/-- The literal of the negative lookbehind, reversed for prefix testing
against the reversed scanned prefix. -/
def plotNoRev : List Char := "Plot No. ".data.reverse

/-- The separator class `[\-|\s]`. -/
def isSepRH (c : Char) : Bool := c = '-' || c = '|' || isSpaceChar c

/-- Matcher for the hyphen-removal regex. -/
def tryRH (rev suf : List Char) : Option (Nat × List Char) :=
  if plotNoRev.isPrefixOf rev then none
  else
    match suf with
    | a :: s :: rest =>
      if a.isUpper && isSepRH s then
        match rest with
        | b :: r2 =>
          if b.isDigit then
            (match r2 with
             | c :: r3 =>
               if c.isDigit && boundaryB (some c) r3.head? then
                 some (4, [b, c, a.toUpper])
               else none
             | [] => none)
            <|> (if boundaryB (some b) r2.head? then some (3, [b, a.toUpper]) else none)
          else none
        | [] => none
      else none
    | _ => none

/-- Transcribes `cleanOSM.remove_hypen_space_and_switch`. -/
def remove_hypen_space_and_switch (name : String) : String :=
  if searchScan tryRH (name.data.length + 1) [] name.data then
    String.mk (subScan tryRH (name.data.length + 1) [] name.data)
  else name

/-! ## cleanOSM.put_number_after_street (clean_osm.py 197-210)

Regex `(?<!(\d{2} ))(\b\d{1,2}[A-Z]{0,1})\s(Street)(?! \d{2})`; the
replacement `switch_number` yields the Street literal, a space, and the
number group. -/

/-- Tail of the number-after-street regex, after the number group `g2`:
one whitespace, the literal Street, and the negative lookahead. -/
def afterNumPN (g2 : List Char) (s : List Char) : Option (Nat × List Char) :=
  match s with
  | c :: rest =>
    if isSpaceChar c then
      if "Street".data.isPrefixOf rest then
        let after := rest.drop 6
        let laBad : Bool :=
          match after with
          | ' ' :: x :: y :: _ => x.isDigit && y.isDigit
          | _ => false
        if laBad then none else some (7, "Street".data ++ ' ' :: g2)
      else none
    else none
  | [] => none

/-- Matcher for the number-after-street regex: negative lookbehind for two
digits and a space, a word boundary, one or two digits (greedy), an
optional capital letter (greedy), then the tail. -/
def tryPN (rev suf : List Char) : Option (Nat × List Char) :=
  let lbBad : Bool :=
    match rev with
    | ' ' :: d2 :: d1 :: _ => d2.isDigit && d1.isDigit
    | _ => false
  if lbBad then none
  else if boundaryB rev.head? suf.head? then
    match suf with
    | a :: rest =>
      if a.isDigit then
        (match rest with
         | b :: r2 =>
           if b.isDigit then
             (match r2 with
              | u :: r3 =>
                if u.isUpper then (afterNumPN [a, b, u] r3).map (fun p => (3 + p.1, p.2))
                else none
              | [] => none)
             <|> (afterNumPN [a, b] r2).map (fun p => (2 + p.1, p.2))
           else none
         | [] => none)
        <|> ((match rest with
              | u :: r3 =>
                if u.isUpper then (afterNumPN [a, u] r3).map (fun p => (2 + p.1, p.2))
                else none
              | [] => none)
             <|> (afterNumPN [a] rest).map (fun p => (1 + p.1, p.2)))
      else none
    | [] => none
  else none

/-- Transcribes `cleanOSM.put_number_after_street`. -/
def put_number_after_street (name : String) : String :=
  if searchScan tryPN (name.data.length + 1) [] name.data then
    String.mk (subScan tryPN (name.data.length + 1) [] name.data)
  else name

/-! ## cleanOSM.add_street_prefix (clean_osm.py 167-184)

First regex `(?<!(Street |France |Center |strict ))(\b\d{1,2}[A-Z]{1}\b)(?! Street| Sikka)`
with replacement Street-space-group; fallback regex `^(\b\d{1,2}\b)$` with
the same replacement shape.  Named `add_street_pfx` here. -/

/-- The negative-lookbehind alternatives, reversed for prefix testing. -/
def guardWordsRev : List (List Char) :=
  ["Street ", "France ", "Center ", "strict "].map (fun s => s.data.reverse)

/-- Tail of the first `add_street_pfx` regex after the digit group: one
capital letter, a word boundary, and the negative lookahead. -/
def aspCore (ds : List Char) (s : List Char) : Option (Nat × List Char) :=
  match s with
  | u :: r3 =>
    if u.isUpper && boundaryB (some u) r3.head? then
      if " Street".data.isPrefixOf r3 || " Sikka".data.isPrefixOf r3 then none
      else some (ds.length + 1, "Street ".data ++ ds ++ [u])
    else none
  | [] => none

/-- Matcher for the first `add_street_pfx` regex. -/
def tryASP (rev suf : List Char) : Option (Nat × List Char) :=
  if guardWordsRev.any (fun p => p.isPrefixOf rev) then none
  else if boundaryB rev.head? suf.head? then
    match suf with
    | a :: rest =>
      if a.isDigit then
        (match rest with
         | b :: r2 =>
           if b.isDigit then (aspCore [a, b] r2).map (fun p => (2 + p.1, p.2)) else none
         | [] => none)
        <|> (aspCore [a] rest).map (fun p => (1 + p.1, p.2))
      else none
    | [] => none
  else none

/-- The fallback regex `^(\b\d{1,2}\b)$` of `add_street_pfx`: the whole
string is one or two digits (a dollar anchor also matches just before one
trailing newline).  Returns the digit group and the trailing remainder. -/
def fullNumMatch (l : List Char) : Option (List Char × List Char) :=
  let core := match l.getLast? with
    | some '\n' => l.dropLast
    | _ => l
  let tail := match l.getLast? with
    | some '\n' => ['\n']
    | _ => ([] : List Char)
  if (core.length = 1 || core.length = 2) && core.all Char.isDigit then some (core, tail)
  else none

/-- Transcribes `cleanOSM.add_street_prefix` (renamed `add_street_pfx`). -/
def add_street_pfx (name : String) : String :=
  if searchScan tryASP (name.data.length + 1) [] name.data then
    String.mk (subScan tryASP (name.data.length + 1) [] name.data)
  else
    match fullNumMatch name.data with
    | some (ds, tail) => String.mk ("Street ".data ++ ds ++ tail)
    | none => name

/-! ## cleanOSM.remove_non_street_values, extract_street, clean_street_name
(clean_osm.py 212-263) -/

/-- Transcribes `cleanOSM.remove_non_street_values`: keep the name if any
expected street word occurs as a substring, else the None marker. -/
def remove_non_street_values (expected_values : List String) (name : String) : String :=
  if expected_values.any (fun value => strContains name value) then name else "None"

/-- Transcribes `cleanOSM.extract_street`: for each split character (hyphen
then comma) occurring in the name, return the first split part containing
an expected street word; fall through to the unsplit name. -/
def extract_street (expected_values : List String) (name : String) : String :=
  let split_on : List Char := ['-', ',']
  match split_on.findSome? (fun ch =>
      if name.data.contains ch then
        (splitOnChar ch name.data).findSome? (fun part =>
          if expected_values.any (fun value => strContains (String.mk part) value) then
            some (String.mk part)
          else none)
      else none) with
  | some part => part
  | none => name

/-- Transcribes `cleanOSM.clean_street_name` (clean_osm.py 246-263): the
fixed pipeline of rewrite steps, with extraction only when the result was
not nulled. -/
def clean_street_name (mapping : List (String × String)) (expected_values : List String)
    (dirty_value : String) : String :=
  let c1 := update_street_name mapping dirty_value
  let c2 := remove_brackets (capwords c1)
  let c3 := street_letter_to_uppercase_and_removegap c2
  let c4 := switch_digit_position c3
  let c5 := remove_hypen_space_and_switch c4
  let c6 := put_number_after_street c5
  let c7 := add_street_pfx c6
  let c8 := remove_non_street_values expected_values c7
  if c8 != "None" then extract_street expected_values c8 else c8

/-! ## Reference data from convertToCSV.py (lines 99-157) -/

/-- The street-name mapping dictionary of convertToCSV.py, in source order. -/
def mapping_street_name : List (String × String) :=
  [("St.", "Street"), ("St", "Street"), ("street", "Street"),
   ("Rd.", "Road"), ("Rd", "Road"), ("road", "Road")]

/-- The canonical street-word list of convertToCSV.py. -/
def expected_street_name : List String :=
  ["Street", "Avenue", "Boulevard", "Drive", "Court", "Place", "Square", "Lane", "Road",
   "Trail", "Parkway", "Commons", "Slipway", "Way", "Walk", "Highway", "Roundabout", "Exit",
   "Link", "Track", "Corniche"]

/-- The city mapping dictionary of convertToCSV.py, in source order. -/
def mapping_city : List (String × String) :=
  [("A Ain", "Al Ain"),
   ("Al AIn", "Al Ain"),
   ("sharja", "Sharjah"),
   ("Duba", "Dubai"),
   ("Mussafah M 45- Abu Dhabi", "Mussafah"),
   ("Musaffah Industrial Area", "Mussafah"),
   ("Duabi", "Dubai"),
   ("Al Safa 1", "Dubai"),
   ("Al Safa 2", "Dubai"),
   ("Jumeirah 1", "Dubai"),
   ("Jumeirah 3", "Dubai"),
   ("Jumeirah Village Circle", "Dubai"),
   ("Sjarjah", "Sharjah"),
   ("samha", "Al Samha"),
   ("JVT", "Dubai"),
   ("Al Quoz Industrial Area 2", "Dubai"),
   ("Jumeirah Lakes Towers", "Dubai"),
   ("JLT Cluster Y", "Dubai"),
   ("Karama", "Al Karama")]

/-- The canonical city list of convertToCSV.py (duplicates kept as written). -/
def expected_cities : List String :=
  ["Abu Dhabi", "Dubai", "Dibba Al-Fujairah", "Al Ain", "Fujairah", "Sharjah", "Al Karama",
   "Al Nud", "Mussafah", "Ajman", "Saadiyat Island", "Al Reem Island", "Khalifa City A",
   "Khalifa City B", "Khalifa City C", "Al Towayya", "Hatta", "Al Khan", "Al Maryah Island",
   "Muhammad Bin Zayed City", "Al Karama", "Al Samha", "Umm Al Quwain", "Ras al Khaimah",
   "Yas Island", "Hatta"]

/-- The surface mapping dictionary of convertToCSV.py. -/
def mapping_surface : List (String × String) :=
  [("running surface", "running_surface"),
   ("Elevated", "elevated"),
   ("paving_stoness", "paving_stones"),
   ("pavin", "paving"),
   ("paving stones", "paving_stones"),
   ("unpaveds", "unpaved"),
   ("unpaved`", "unpaved"),
   ("paving`", "paving"),
   ("asphalt`", "asphalt")]

/-- The building mapping dictionary of convertToCSV.py. -/
def mapping_building : List (String × String) :=
  [("Airport_terminal", "terminal"),
   ("Office_And_entrance", "commercial"),
   ("MAJ Building", "yes"),
   ("Complex_A_&_B", "yes"),
   ("yes;mosque", "mosque"),
   ("Tourist_Exhibition", "yes"),
   ("Gate 3", "yes"),
   ("Offices", "commercial"),
   ("office", "commercial")]

/-! ## convertToCSV.py patterns (lines 95-97) -/

/-- The character set of `PROBLEMCHARS`
(`[=\+/&<>;\'"\?%#$@\,\. \t\r\n]`). -/
def problemCharList : List Char :=
  ['=', '+', '/', '&', '<', '>', ';', '\'', '"', '?', '%', '#', '$', '@', ',', '.',
   ' ', '\t', '\r', '\n']

/-- Search for `PROBLEMCHARS`: does any problematic character occur? -/
def problemCharsSearch (k : List Char) : Bool :=
  k.any (fun c => problemCharList.contains c)

/-- Character class `[a-z]|_` of `LOWER_COLON`. -/
def isLC (c : Char) : Bool := c.isLower || c = '_'

/-- Search for `LOWER_COLON` (`^([a-z]|_)+:([a-z]|_)+`): an anchored run of
lowercase-or-underscore characters, a colon, then at least one more class
character.  Because the class excludes the colon, the greedy run is the
maximal class prefix. -/
def lowerColonSearch (k : List Char) : Bool :=
  !(k.takeWhile isLC).isEmpty &&
    (match k.dropWhile isLC with
     | c :: d :: _ => c = ':' && isLC d
     | _ => false)

/-- Python `k.split(':', 1)` first component (characters before the first
colon). -/
def beforeColon (k : List Char) : List Char :=
  k.takeWhile (fun c => c != ':')

/-- Python `k.split(':', 1)` second component (characters after the first
colon). -/
def afterColon (k : List Char) : List Char :=
  (k.dropWhile (fun c => c != ':')).drop 1

/-- One alternative of `ARABICKEY` (`((\:ar)|\b(ar))$$`) ending exactly at
the end of `l`: either a literal colon-a-r, or a-r preceded by a word
boundary. -/
def arCheckAt (l : List Char) : Bool :=
  ([':', 'a', 'r'].isSuffixOf l) ||
    (['a', 'r'].isSuffixOf l &&
      (match l.dropLast.dropLast.getLast? with
       | some c => !isWordChar c
       | none => true))

/-- Search for `ARABICKEY`: the dollar anchor holds at the end of the
string, and also just before one trailing newline. -/
def arabicSearch (k : List Char) : Bool :=
  arCheckAt k ||
    (match k.getLast? with
     | some '\n' => arCheckAt k.dropLast
     | _ => false)

/-! ## ConvertToCSV.shape_element (convertToCSV.py 196-306) -/

/-- An OSM element as seen by `shape_element`: the top-level tag name, the
attribute dictionary (`element.get` returns `none` when absent), the child
tag elements as (k, v) attribute pairs, and the `ref` attributes of the
child nd elements. -/
structure OSMElement where
  tag : String
  attrs : List (String × String)
  tags : List (String × String)
  nds : List String
  deriving DecidableEq

/-- One emitted tag row (`tag_attrib`): owning record id, local key,
cleaned value, namespace type. -/
structure TagRow where
  id : Option String
  key : String
  value : String
  type : String
  deriving DecidableEq

/-- One emitted way-node row (`nd_attrib`): owning way id, referenced node
id, 0-based position. -/
structure WayNodeRow where
  id : Option String
  node_id : String
  position : Nat
  deriving DecidableEq

/-- The dictionary returned by `shape_element`, one constructor per branch. -/
inductive Shaped where
  | node (node_attribs : List (String × Option String)) (node_tags : List TagRow)
  | way (way_attribs : List (String × Option String)) (way_nodes : List WayNodeRow)
      (way_tags : List TagRow)
  deriving DecidableEq

/-- `NODE_FIELDS` (convertToCSV.py 161). -/
def NODE_FIELDS : List String :=
  ["id", "lat", "lon", "user", "uid", "version", "changeset", "timestamp"]

/-- `WAY_FIELDS` (convertToCSV.py 163). -/
def WAY_FIELDS : List String :=
  ["id", "user", "uid", "version", "changeset", "timestamp"]

/-- Processing of one child tag in the node branch of `shape_element`
(convertToCSV.py 210-248): skip on `problem_chars` (a parameter of
`shape_element`) or `arabic_chars`, clean the value for the designated
keys, and split the key at the first colon when `LOWER_COLON` matches,
else use the `default_tag_type` namespace. -/
def nodeProcessTag (problem_chars arabic_chars : List Char → Bool)
    (default_tag_type : String) (elemId : Option String) (k v : String) :
    Option TagRow :=
  if problem_chars k.data then none
  else if arabic_chars k.data then none
  else
    let value :=
      if k = "addr:street" then
        clean_street_name mapping_street_name expected_street_name v
      else if k = "building" then clean_value mapping_building v
      else if k = "surface" then clean_value mapping_surface v
      else if k = "oneway" then set_to_none
      else if k = "addr:city" then clean_city_name mapping_city expected_cities v
      else v
    if lowerColonSearch k.data then
      some { id := elemId, key := String.mk (afterColon k.data), value := value,
             type := String.mk (beforeColon k.data) }
    else
      some { id := elemId, key := k, value := value, type := default_tag_type }

/-- Processing of one child tag in the way branch of `shape_element`
(convertToCSV.py 266-304), transcribed separately: the way branch tests the
module-level `PROBLEMCHARS` instead of the `problem_chars` parameter. -/
def wayProcessTag (arabic_chars : List Char → Bool)
    (default_tag_type : String) (elemId : Option String) (k v : String) :
    Option TagRow :=
  if problemCharsSearch k.data then none
  else if arabic_chars k.data then none
  else
    let value :=
      if k = "addr:street" then
        clean_street_name mapping_street_name expected_street_name v
      else if k = "building" then clean_value mapping_building v
      else if k = "surface" then clean_value mapping_surface v
      else if k = "oneway" then set_to_none
      else if k = "addr:city" then clean_city_name mapping_city expected_cities v
      else v
    if lowerColonSearch k.data then
      some { id := elemId, key := String.mk (afterColon k.data), value := value,
             type := String.mk (beforeColon k.data) }
    else
      some { id := elemId, key := k, value := value, type := default_tag_type }

/-- The nd loop of the way branch (convertToCSV.py 257-264): one row per
reference, with `nd_index` starting at `i` and incremented per row. -/
def buildWayNodes (elemId : Option String) : List String → Nat → List WayNodeRow
  | [], _ => []
  | r :: rs, i => { id := elemId, node_id := r, position := i } :: buildWayNodes elemId rs (i + 1)

/-- Transcribes `ConvertToCSV.shape_element`.  The parameters mirror the
Python keyword parameters (their call-site defaults are `NODE_FIELDS`,
`WAY_FIELDS`, `problemCharsSearch`, `arabicSearch` and the string regular);
elements that are neither node nor way yield `none` (Python falls off the
function). -/
def shape_element (problem_chars arabic_chars : List Char → Bool)
    (node_attr_fields way_attr_fields : List String) (default_tag_type : String)
    (e : OSMElement) : Option Shaped :=
  if e.tag = "node" then
    some (.node
      (node_attr_fields.map (fun f => (f, dictGet e.attrs f)))
      (e.tags.filterMap (fun kv =>
        nodeProcessTag problem_chars arabic_chars default_tag_type
          (dictGet e.attrs "id") kv.1 kv.2)))
  else if e.tag = "way" then
    some (.way
      (way_attr_fields.map (fun f => (f, dictGet e.attrs f)))
      (buildWayNodes (dictGet e.attrs "id") e.nds 0)
      (e.tags.filterMap (fun kv =>
        wayProcessTag arabic_chars default_tag_type (dictGet e.attrs "id") kv.1 kv.2)))
  else none

/-! ## Exception-modelling variants

To state the no-exception policy, the cleaning entry points are re-derived
with every fallible Python operation made explicit: each dictionary
subscript becomes a `dictGet` returning `none` on a missing key (a Python
`KeyError`), and the two-target unpacking of `split(":", 1)` becomes
`splitColonE`, returning `none` when there is no colon to split on (a
Python `ValueError`).  A `none` anywhere models an uncaught exception.
The group subscripts inside the `re.sub` replacement lambdas are the other
potentially fallible operations of the source; each matcher above accesses
only groups that participate in every match of its pattern (the lookbehind
groups, which can be unmatched, are never accessed), which the per-matcher
transcriptions make explicit, so no `Option` is needed for them. -/

/-- `clean_value` with the dictionary subscript kept fallible. -/
def cleanValueE (mapping : List (String × String)) (dirty_value : String) : Option String :=
  if (mapping.map Prod.fst).contains dirty_value then dictGet mapping dirty_value
  else some dirty_value

/-- `update_street_name` with the per-key dictionary subscript
`self.mapping[key]` kept fallible; the iteration is over the keys of the
dictionary, as in the Python for loop. -/
def update_street_nameE (mapping : List (String × String)) (dirty_value : String) :
    Option String :=
  (mapping.map Prod.fst).foldlM
    (fun clean_value key =>
      if strContains dirty_value key then
        if searchKey key dirty_value then
          (dictGet mapping key).map (fun val => subKey key val dirty_value)
        else some clean_value
      else some clean_value)
    dirty_value

/-- `clean_street_name` with the fallible first step threaded through. -/
def cleanStreetNameE (mapping : List (String × String)) (expected_values : List String)
    (dirty_value : String) : Option String :=
  (update_street_nameE mapping dirty_value).map (fun c1 =>
    let c2 := remove_brackets (capwords c1)
    let c3 := street_letter_to_uppercase_and_removegap c2
    let c4 := switch_digit_position c3
    let c5 := remove_hypen_space_and_switch c4
    let c6 := put_number_after_street c5
    let c7 := add_street_pfx c6
    let c8 := remove_non_street_values expected_values c7
    if c8 != "None" then extract_street expected_values c8 else c8)

/-- `clean_city_name` with the fallible mapping lookup threaded through. -/
def cleanCityNameE (mapping : List (String × String)) (expected_values : List String)
    (dirty_value : String) : Option String :=
  let city_status := is_expected_city expected_values dirty_value
  if city_status.1 then some city_status.2
  else if (mapping.map Prod.fst).contains dirty_value then cleanValueE mapping dirty_value
  else if englishSearch dirty_value.data then
    if wrong_entry.contains dirty_value then some set_to_none
    else some (capwords dirty_value)
  else some set_to_none

/-- Fallible `k.split(":", 1)` unpacked into exactly two targets: fails
when the key contains no colon. -/
def splitColonE (k : String) : Option (String × String) :=
  if k.data.contains ':' then
    some (String.mk (beforeColon k.data), String.mk (afterColon k.data))
  else none

/-- The node-branch tag processing with every fallible step explicit; the
outer `Option` models an exception, the inner one the skip of a tag. -/
def nodeProcessTagE (problem_chars arabic_chars : List Char → Bool)
    (default_tag_type : String) (elemId : Option String) (k v : String) :
    Option (Option TagRow) :=
  if problem_chars k.data then some none
  else if arabic_chars k.data then some none
  else
    (if k = "addr:street" then
        cleanStreetNameE mapping_street_name expected_street_name v
      else if k = "building" then cleanValueE mapping_building v
      else if k = "surface" then cleanValueE mapping_surface v
      else if k = "oneway" then some set_to_none
      else if k = "addr:city" then cleanCityNameE mapping_city expected_cities v
      else some v).bind (fun value =>
        if lowerColonSearch k.data then
          (splitColonE k).map (fun tk =>
            some { id := elemId, key := tk.2, value := value, type := tk.1 })
        else
          some (some { id := elemId, key := k, value := value, type := default_tag_type }))

/-! ## Helper lemmas -/

/-- A key that is contained in the key list of a dictionary can be
subscripted without a `KeyError`. -/
theorem dictGet_isSome_of_contains (m : List (String × String)) (v : String)
    (h : (m.map Prod.fst).contains v = true) : (dictGet m v).isSome := by
  induction m with
  | nil => simp at h
  | cons p rest ih =>
    by_cases hp : p.1 = v
    · simp [dictGet, hp]
    · have : (rest.map Prod.fst).contains v = true := by
        simp only [List.map_cons, List.contains_cons] at h
        rcases Bool.or_eq_true_iff.mp h with h' | h'
        · have hv : v = p.1 := by simpa using h'
          exact absurd hv.symm hp
        · exact h'
      simp [dictGet, hp, ih this]

/-- A successful dictionary subscript implies key membership. -/
theorem contains_of_dictGet (m : List (String × String)) (v c : String)
    (h : dictGet m v = some c) : (m.map Prod.fst).contains v = true := by
  induction m with
  | nil => simp [dictGet] at h
  | cons p rest ih =>
    by_cases hp : p.1 = v
    · simp [hp]
    · simp only [dictGet, if_neg hp] at h
      have h2 := ih h
      simp only [List.map_cons, List.contains_cons, Bool.or_eq_true]
      right
      simpa using h2

/-- In a dictionary with pairwise-distinct keys, subscripting by the key of
an entry returns the value of that entry. -/
theorem dictGet_self (m : List (String × String)) (h : (m.map Prod.fst).Nodup) :
    ∀ p ∈ m, dictGet m p.1 = some p.2 := by
  induction m with
  | nil => intro p hp; simp at hp
  | cons q rest ih =>
    intro p hp
    rcases List.mem_cons.mp hp with rfl | hp'
    · simp [dictGet]
    · have hq : q.1 ≠ p.1 := by
        intro heq
        have : p.1 ∈ rest.map Prod.fst := List.mem_map_of_mem Prod.fst hp'
        rw [List.map_cons] at h
        exact (List.nodup_cons.mp h).1 (heq ▸ this)
      have := ih (List.nodup_cons.mp (by rwa [List.map_cons] at h)).2 p hp'
      simp [dictGet, hq, this]

/-- Characters of a `takeWhile` satisfy the predicate. -/
theorem all_takeWhile (p : Char → Bool) (l : List Char) :
    ∀ x ∈ l.takeWhile p, p x = true := by
  induction l with
  | nil => simp
  | cons c rest ih =>
    by_cases hc : p c
    · intro x hx
      rw [List.takeWhile_cons, if_pos hc] at hx
      rcases List.mem_cons.mp hx with rfl | hx'
      · exact hc
      · exact ih x hx'
    · intro x hx
      rw [List.takeWhile_cons, if_neg hc] at hx
      simp at hx

/-- Splitting a list at the first element violating the predicate. -/
theorem takeWhile_dropWhile_append (p : Char → Bool) (l t : List Char) (c : Char)
    (hl : ∀ x ∈ l, p x = true) (hc : p c = false) :
    (l ++ c :: t).takeWhile p = l ∧ (l ++ c :: t).dropWhile p = c :: t := by
  induction l with
  | nil => simp [List.takeWhile_cons, List.dropWhile_cons, hc]
  | cons a l ih =>
    have ha : p a = true := hl a (List.mem_cons_self a l)
    have ih' := ih (fun x hx => hl x (List.mem_cons_of_mem a hx))
    simp [List.takeWhile_cons, List.dropWhile_cons, ha, ih'.1, ih'.2]

/-- The `LOWER_COLON` search succeeds exactly on keys of the form: a
nonempty lowercase-or-underscore segment, a colon, then at least one more
lowercase-or-underscore character. -/
theorem lowerColonSearch_iff (k : List Char) :
    lowerColonSearch k = true ↔
      ∃ ns c rest, k = ns ++ ':' :: c :: rest ∧ ns ≠ [] ∧
        (∀ x ∈ ns, isLC x = true) ∧ isLC c = true := by
  constructor
  · intro h
    unfold lowerColonSearch at h
    rw [Bool.and_eq_true] at h
    obtain ⟨h1, h2⟩ := h
    have hk : k.takeWhile isLC ++ k.dropWhile isLC = k :=
      List.takeWhile_append_dropWhile isLC k
    rcases hd : k.dropWhile isLC with _ | ⟨a, _ | ⟨b, t⟩⟩ <;> rw [hd] at h2
    · simp at h2
    · simp at h2
    · rw [Bool.and_eq_true] at h2
      obtain ⟨ha, hb⟩ := h2
      have ha' : a = ':' := by simpa using ha
      refine ⟨k.takeWhile isLC, b, t, ?_, ?_, all_takeWhile isLC k, hb⟩
      · conv_lhs => rw [← hk]
        rw [hd, ha']
      · intro hempty
        rw [hempty] at h1
        simp at h1
  · rintro ⟨ns, c, rest, rfl, hne, hns, hc⟩
    have hcolon : isLC ':' = false := by decide
    have := takeWhile_dropWhile_append isLC ns (c :: rest) ':' hns hcolon
    unfold lowerColonSearch
    rw [this.1, this.2, Bool.and_eq_true]
    constructor
    · simpa using hne
    · simp [hc]

/-- Under the decomposition of `lowerColonSearch_iff`, the Python
`split(":", 1)` components are the segment and the remainder. -/
theorem beforeColon_afterColon (ns : List Char) (c : Char) (rest : List Char)
    (hns : ∀ x ∈ ns, isLC x = true) :
    beforeColon (ns ++ ':' :: c :: rest) = ns ∧
    afterColon (ns ++ ':' :: c :: rest) = c :: rest := by
  have hns' : ∀ x ∈ ns, (x != ':') = true := by
    intro x hx
    have := hns x hx
    have hx' : x ≠ ':' := by
      intro hxeq
      rw [hxeq] at this
      simp [isLC] at this
    simpa using hx'
  have hcol : ((':' : Char) != ':') = false := by decide
  have := takeWhile_dropWhile_append (fun x => x != ':') ns (c :: rest) ':' hns' hcol
  exact ⟨this.1, by simp [afterColon, this.2]⟩

/-- The `foldlM` of `update_street_nameE` over the key list of a dictionary
whose subscripts all succeed agrees with the plain fold over its entries. -/
theorem updateE_aux (m0 m : List (String × String)) (v : String) (init : String)
    (h : ∀ p ∈ m, dictGet m0 p.1 = some p.2) :
    (m.map Prod.fst).foldlM
      (fun clean_value key =>
        if strContains v key then
          if searchKey key v then
            (dictGet m0 key).map (fun val => subKey key val v)
          else some clean_value
        else some clean_value) init
    = some (m.foldl
        (fun clean_value kv =>
          if strContains v kv.1 then
            if searchKey kv.1 v then subKey kv.1 kv.2 v else clean_value
          else clean_value) init) := by
  induction m generalizing init with
  | nil => rfl
  | cons p rest ih =>
    have hp := h p (List.mem_cons_self p rest)
    have hrest : ∀ q ∈ rest, dictGet m0 q.1 = some q.2 :=
      fun q hq => h q (List.mem_cons_of_mem p hq)
    simp only [List.map_cons, List.foldlM_cons, List.foldl_cons]
    by_cases h1 : strContains v p.1
    · by_cases h2 : searchKey p.1 v
      · simp only [h1, h2, if_true, hp, Option.map_some']
        exact ih (subKey p.1 p.2 v) hrest
      · simp only [h1, h2, if_true, if_false]
        exact ih init hrest
    · simp only [h1, if_false]
      exact ih init hrest

/-- For a dictionary with pairwise-distinct keys the exception-modelling
`update_street_nameE` always succeeds, with the plain result. -/
theorem update_street_nameE_eq (m : List (String × String))
    (h : (m.map Prod.fst).Nodup) (v : String) :
    update_street_nameE m v = some (update_street_name m v) :=
  updateE_aux m m v v (dictGet_self m h)

/-- The exception-modelling `cleanValueE` always succeeds, with the plain
result. -/
theorem cleanValueE_eq (m : List (String × String)) (v : String) :
    cleanValueE m v = some (clean_value m v) := by
  unfold cleanValueE clean_value
  by_cases h : (m.map Prod.fst).contains v
  · rw [if_pos h, if_pos h]
    obtain ⟨c, hc⟩ := Option.isSome_iff_exists.mp (dictGet_isSome_of_contains m v h)
    rw [hc]
    rfl
  · rw [if_neg h, if_neg h]

/-- The exception-modelling `cleanStreetNameE` always succeeds for a
dictionary with pairwise-distinct keys, with the plain result. -/
theorem cleanStreetNameE_eq (m : List (String × String)) (e : List String)
    (h : (m.map Prod.fst).Nodup) (v : String) :
    cleanStreetNameE m e v = some (clean_street_name m e v) := by
  unfold cleanStreetNameE clean_street_name
  rw [update_street_nameE_eq m h v]
  rfl

/-- The exception-modelling `cleanCityNameE` always succeeds, with the
plain result. -/
theorem cleanCityNameE_eq (m : List (String × String)) (e : List String) (v : String) :
    cleanCityNameE m e v = some (clean_city_name m e v) := by
  unfold cleanCityNameE clean_city_name
  by_cases h1 : (is_expected_city e v).1 = true
  · rw [if_pos h1, if_pos h1]
  · rw [if_neg h1, if_neg h1]
    by_cases h2 : (m.map Prod.fst).contains v = true
    · rw [if_pos h2, if_pos h2, cleanValueE_eq]
    · rw [if_neg h2, if_neg h2]
      by_cases h3 : englishSearch v.data = true
      · rw [if_pos h3, if_pos h3]
        by_cases h4 : wrong_entry.contains v = true
        · rw [if_pos h4, if_pos h4]
        · rw [if_neg h4, if_neg h4]
      · rw [if_neg h3, if_neg h3]

/-- A key accepted by the `LOWER_COLON` search contains a colon, so the
two-target unpacking of its split cannot fail. -/
theorem splitColonE_eq (k : String) (h : lowerColonSearch k.data = true) :
    splitColonE k = some (String.mk (beforeColon k.data), String.mk (afterColon k.data)) := by
  obtain ⟨ns, c, rest, hk, -, -, -⟩ := (lowerColonSearch_iff k.data).mp h
  have : ':' ∈ k.data := by rw [hk]; exact List.mem_append_right ns (List.mem_cons_self ..)
  unfold splitColonE
  rw [if_pos (by simpa [List.contains, List.elem_iff] using this)]

/-- The exception-modelling node-branch tag processing always succeeds,
with the plain result (skips included). -/
theorem nodeProcessTagE_eq (problem_chars arabic_chars : List Char → Bool)
    (default_tag_type : String) (elemId : Option String) (k v : String) :
    nodeProcessTagE problem_chars arabic_chars default_tag_type elemId k v
      = some (nodeProcessTag problem_chars arabic_chars default_tag_type elemId k v) := by
  unfold nodeProcessTagE nodeProcessTag
  by_cases hp : problem_chars k.data = true
  · rw [if_pos hp, if_pos hp]
  · rw [if_neg hp, if_neg hp]
    by_cases ha : arabic_chars k.data = true
    · rw [if_pos ha, if_pos ha]
    · rw [if_neg ha, if_neg ha]
      have hv :
          (if k = "addr:street" then
            cleanStreetNameE mapping_street_name expected_street_name v
          else if k = "building" then cleanValueE mapping_building v
          else if k = "surface" then cleanValueE mapping_surface v
          else if k = "oneway" then some set_to_none
          else if k = "addr:city" then cleanCityNameE mapping_city expected_cities v
          else some v)
          = some (if k = "addr:street" then
              clean_street_name mapping_street_name expected_street_name v
            else if k = "building" then clean_value mapping_building v
            else if k = "surface" then clean_value mapping_surface v
            else if k = "oneway" then set_to_none
            else if k = "addr:city" then clean_city_name mapping_city expected_cities v
            else v) := by
        by_cases k1 : k = "addr:street"
        · simp only [k1, if_true, cleanStreetNameE_eq mapping_street_name
            expected_street_name (by decide) v]
        · simp only [if_neg k1]
          by_cases k2 : k = "building"
          · simp only [k2, if_true, cleanValueE_eq]
          · simp only [if_neg k2]
            by_cases k3 : k = "surface"
            · simp only [k3, if_true, cleanValueE_eq]
            · simp only [if_neg k3]
              by_cases k4 : k = "oneway"
              · simp only [k4, if_true]
              · simp only [if_neg k4]
                by_cases k5 : k = "addr:city"
                · simp only [k5, if_true, cleanCityNameE_eq]
                · simp only [if_neg k5]
      rw [hv, Option.some_bind]
      by_cases hl : lowerColonSearch k.data = true
      · rw [if_pos hl, if_pos hl, splitColonE_eq k hl, Option.map_some']
      · rw [if_neg hl, if_neg hl]

/-- The positions of the nd loop starting at index `i`. -/
theorem buildWayNodes_pos (elemId : Option String) (l : List String) (i : Nat) :
    (buildWayNodes elemId l i).map (fun r => r.position)
      = (List.range l.length).map (fun j => i + j) := by
  induction l generalizing i with
  | nil => simp [buildWayNodes]
  | cons a l ih =>
    simp only [buildWayNodes, List.map_cons, List.length_cons, List.range_succ_eq_map,
      ih (i + 1), List.map_map]
    refine congrArg₂ (· :: ·) (by omega) ?_
    refine List.map_congr_left (fun j _ => ?_)
    simp [Function.comp]
    omega

/-- The node ids of the nd loop are the references in source order. -/
theorem buildWayNodes_nodeId (elemId : Option String) (l : List String) (i : Nat) :
    (buildWayNodes elemId l i).map (fun r => r.node_id) = l := by
  induction l generalizing i with
  | nil => rfl
  | cons a l ih => simp [buildWayNodes, ih (i + 1)]

/-- Every row of the nd loop carries the owning record id. -/
theorem buildWayNodes_recId (elemId : Option String) (l : List String) (i : Nat) :
    (buildWayNodes elemId l i).map (fun r => r.id)
      = List.replicate l.length elemId := by
  induction l generalizing i with
  | nil => rfl
  | cons a l ih => simp [buildWayNodes, ih (i + 1), List.replicate_succ]

/-! ## Claim theorems -/

/-- C1 (counterexample): in the street value St-space-Rd both mapping keys
St and Rd occur as whole words, yet `update_street_name` with the street
mapping returns St-space-Road: the substitution for the key Rd was applied
to the original input, discarding the earlier substitution of St (the
output does not contain Street at all), so the two keys are not both
replaced as the claim states. -/
theorem update_street_name_two_keys_cex :
    searchKey "St" "St Rd" = true ∧ searchKey "Rd" "St Rd" = true ∧
    update_street_name mapping_street_name "St Rd" = "St Road" ∧
    strContains "St Road" "Street" = false ∧
    update_street_name mapping_street_name "St Rd" ≠ "Street Road" :=
  ⟨by decide, by decide, by decide, by decide, by decide⟩

/-- C1 (amended): each whole-word substitution of `update_street_name` is
applied to the original input and overwrites the accumulator, so only the
substitution for the last matching key of the mapping survives: whenever
the final mapping entry has a key occurring in the input and matching its
whole-word regex, the result is exactly that single substitution applied
to the original input, regardless of any earlier entries. -/
theorem update_street_name_last_key_wins (m : List (String × String))
    (k val v : String) (h1 : strContains v k = true) (h2 : searchKey k v = true) :
    update_street_name (m ++ [(k, val)]) v = subKey k val v := by
  unfold update_street_name
  rw [List.foldl_append]
  simp [h1, h2]

/-- Witness for C1 (amended) at the two-entry mapping St-to-Street,
Rd-to-Road and the input St-space-Rd. -/
theorem update_street_name_last_key_wins_witness :
    strContains "St Rd" "Rd" = true ∧ searchKey "Rd" "St Rd" = true ∧
    update_street_name ([("St", "Street")] ++ [("Rd", "Road")]) "St Rd"
      = subKey "Rd" "Road" "St Rd" :=
  ⟨by decide, by decide,
    update_street_name_last_key_wins [("St", "Street")] "Rd" "Road" "St Rd"
      (by decide) (by decide)⟩

/-- C2 (counterexample): cleaning the street value E11 with the street
mapping and canonical list does not return the null-marker None. -/
theorem clean_street_name_E11_cex :
    clean_street_name mapping_street_name expected_street_name "E11" ≠ "None" := by
  decide

/-- C2 (amended): for the input street value E11 the letter/number swap
yields 11E, but the street-prefix step then prepends the word Street, so
the value contains a canonical street word and `clean_street_name` returns
Street-space-11E rather than the null-marker. -/
theorem clean_street_name_E11_prefixed :
    switch_digit_position "E11" = "11E" ∧
    add_street_pfx "11E" = "Street 11E" ∧
    clean_street_name mapping_street_name expected_street_name "E11" = "Street 11E" :=
  ⟨by decide, by decide, by decide⟩

/-- C4 (counterexample): `clean_street_name` is not idempotent: the input
A-comma-space-Street-space-5 cleans to space-Street-space-5 (the extracted
comma segment keeps its leading space), and cleaning that output again
yields Street-space-5 (the title-casing step strips the space), which
differs. -/
theorem clean_street_name_idempotent_cex :
    clean_street_name mapping_street_name expected_street_name "A, Street 5"
      = " Street 5" ∧
    clean_street_name mapping_street_name expected_street_name " Street 5"
      = "Street 5" ∧
    (" Street 5" : String) ≠ "Street 5" :=
  ⟨by decide, by decide, by decide⟩

/-- C4 (amended): the pipeline is idempotent on its null branch: for every
input whose cleaned value is the null-marker None, applying
`clean_street_name` to that output yields it unchanged. -/
theorem clean_street_name_null_fixed_point (v : String)
    (h : clean_street_name mapping_street_name expected_street_name v = "None") :
    clean_street_name mapping_street_name expected_street_name
        (clean_street_name mapping_street_name expected_street_name v)
      = clean_street_name mapping_street_name expected_street_name v := by
  rw [h]
  decide

/-- Witness for C4 (amended) at the input abc, which cleans to None. -/
theorem clean_street_name_null_fixed_point_witness :
    clean_street_name mapping_street_name expected_street_name "abc" = "None" ∧
    clean_street_name mapping_street_name expected_street_name
        (clean_street_name mapping_street_name expected_street_name "abc")
      = clean_street_name mapping_street_name expected_street_name "abc" :=
  ⟨by decide, clean_street_name_null_fixed_point "abc" (by decide)⟩

/-- C8: `clean_value` returns the mapped value exactly on the keys of the
mapping and the input unchanged otherwise; in particular the empty mapping
gives the identity function. -/
theorem clean_value_spec :
    (∀ v : String, clean_value [] v = v) ∧
    (∀ (m : List (String × String)) (v c : String),
        dictGet m v = some c → clean_value m v = c) ∧
    (∀ (m : List (String × String)) (v : String),
        dictGet m v = none → clean_value m v = v) := by
  refine ⟨fun v => rfl, fun m v c h => ?_, fun m v h => ?_⟩
  · unfold clean_value
    rw [if_pos (contains_of_dictGet m v c h), h]
    rfl
  · unfold clean_value
    by_cases hc : (m.map Prod.fst).contains v = true
    · rw [if_pos hc, h]
      rfl
    · rw [if_neg hc]

/-- Witness for C8 at the building value yes-semicolon-mosque, which the
building mapping sends to mosque. -/
theorem clean_value_spec_witness :
    dictGet mapping_building "yes;mosque" = some "mosque" ∧
    clean_value mapping_building "yes;mosque" = "mosque" :=
  ⟨by decide, clean_value_spec.2.1 mapping_building "yes;mosque" "mosque" (by decide)⟩

/-- C3 (counterexample): the city value Mussafah-M-45-Abu-Dhabi is a key of
the city mapping and its title-cased form equals no canonical city name
exactly, yet `clean_city_name` returns Abu-Dhabi (the first canonical name
occurring as a substring) rather than the mapped value Mussafah: the
canonical check is a substring test, not an exact-equality test. -/
theorem clean_city_name_precedence_cex :
    expected_cities.contains (capwords "Mussafah M 45- Abu Dhabi") = false ∧
    dictGet mapping_city "Mussafah M 45- Abu Dhabi" = some "Mussafah" ∧
    clean_city_name mapping_city expected_cities "Mussafah M 45- Abu Dhabi"
      = "Abu Dhabi" ∧
    ("Abu Dhabi" : String) ≠ "Mussafah" :=
  ⟨by decide, by decide, by decide, by decide⟩

/-- C3 (amended): the canonical-city check that takes precedence over the
mapping is a substring check on the title-cased input; whenever no
canonical city name occurs as a substring of the title-cased input and the
raw input is a key of the city mapping, `clean_city_name` returns the
mapped value. -/
theorem clean_city_name_mapping_applied (v c : String)
    (h1 : is_expected_city expected_cities v = (false, ""))
    (h2 : dictGet mapping_city v = some c) :
    clean_city_name mapping_city expected_cities v = c := by
  unfold clean_city_name
  rw [h1]
  have hc := contains_of_dictGet mapping_city v c h2
  simp only [Bool.false_eq_true, if_false, hc, if_true]
  unfold clean_value
  rw [if_pos hc, h2]
  rfl

/-- Witness for C3 (amended) at the input Duba, a mapping key whose
title-cased form contains no canonical city name. -/
theorem clean_city_name_mapping_applied_witness :
    is_expected_city expected_cities "Duba" = (false, "") ∧
    dictGet mapping_city "Duba" = some "Dubai" ∧
    clean_city_name mapping_city expected_cities "Duba" = "Dubai" :=
  ⟨by decide, by decide,
    clean_city_name_mapping_applied "Duba" "Dubai" (by decide) (by decide)⟩

/-- C5 (counterexample): the single-letter input A starts with a letter, is
not matched by the canonical city check, is not a key of the city mapping
and is not a known-junk literal, yet `clean_city_name` nulls it instead of
returning it unchanged: the English pattern requires one further character
after the letter run, so one-character inputs fall to the null branch. -/
theorem clean_city_name_single_letter_cex :
    ("A" : String).data.head? = some 'A' ∧ ('A').isAlpha = true ∧
    is_expected_city expected_cities "A" = (false, "") ∧
    (mapping_city.map Prod.fst).contains "A" = false ∧
    wrong_entry.contains "A" = false ∧
    clean_city_name mapping_city expected_cities "A" = "None" ∧
    ("None" : String) ≠ capwords "A" :=
  ⟨by decide, by decide, by decide, by decide, by decide, by decide, by decide⟩

/-- C5 (amended): for every input matching the English pattern (a run of
letters followed by at least one further character), not matched by the
canonical substring check, not a key of the city mapping and not a
known-junk literal, `clean_city_name` returns the title-cased input;
known-junk literals and inputs not matching the pattern are nulled. -/
theorem clean_city_name_passthrough (v : String)
    (h1 : englishSearch v.data = true)
    (h2 : is_expected_city expected_cities v = (false, ""))
    (h3 : (mapping_city.map Prod.fst).contains v = false)
    (h4 : wrong_entry.contains v = false) :
    clean_city_name mapping_city expected_cities v = capwords v := by
  unfold clean_city_name
  rw [h2]
  simp only [Bool.false_eq_true, if_false, h3, h1, if_true, h4]

/-- Witness for C5 (amended) at the input Abu. -/
theorem clean_city_name_passthrough_witness :
    englishSearch ("Abu" : String).data = true ∧
    clean_city_name mapping_city expected_cities "Abu" = capwords "Abu" :=
  ⟨by decide,
    clean_city_name_passthrough "Abu" (by decide) (by decide) (by decide) (by decide)⟩

/-- C6: for every way-kind element accepted by `shape_element`, the emitted
member rows carry ordinal positions exactly 0 to n-1 assigned in the source
order of the nd references, each row carrying the owning record id
(`shape_element` is a pure function of the element, so this holds
regardless of the order in which records are processed). -/
theorem way_nodes_ordinal_positions (problem_chars arabic_chars : List Char → Bool)
    (node_attr_fields way_attr_fields : List String) (default_tag_type : String)
    (e : OSMElement) (wa : List (String × Option String)) (wn : List WayNodeRow)
    (wt : List TagRow)
    (h : shape_element problem_chars arabic_chars node_attr_fields way_attr_fields
        default_tag_type e = some (.way wa wn wt)) :
    wn.map (fun r => r.position) = List.range e.nds.length ∧
    wn.map (fun r => r.node_id) = e.nds ∧
    wn.map (fun r => r.id) = List.replicate e.nds.length (dictGet e.attrs "id") := by
  unfold shape_element at h
  by_cases h1 : e.tag = "node"
  · rw [if_pos h1] at h
    exact absurd h (by simp)
  · rw [if_neg h1] at h
    by_cases h2 : e.tag = "way"
    · rw [if_pos h2] at h
      rw [Option.some.injEq, Shaped.way.injEq] at h
      obtain ⟨-, hwn, -⟩ := h
      subst hwn
      refine ⟨?_, buildWayNodes_nodeId _ _ _, buildWayNodes_recId _ _ _⟩
      simpa using buildWayNodes_pos (dictGet e.attrs "id") e.nds 0
    · rw [if_neg h2] at h
      exact absurd h (by simp)

/-- Witness for C6 at a way element with two nd references. -/
theorem way_nodes_ordinal_positions_witness :
    ([⟨some "w1", "n1", 0⟩, ⟨some "w1", "n2", 1⟩] : List WayNodeRow).map
        (fun r => r.position) = List.range (["n1", "n2"] : List String).length ∧
    ([⟨some "w1", "n1", 0⟩, ⟨some "w1", "n2", 1⟩] : List WayNodeRow).map
        (fun r => r.node_id) = ["n1", "n2"] ∧
    ([⟨some "w1", "n1", 0⟩, ⟨some "w1", "n2", 1⟩] : List WayNodeRow).map
        (fun r => r.id)
      = List.replicate (["n1", "n2"] : List String).length (dictGet [("id", "w1")] "id") :=
  way_nodes_ordinal_positions problemCharsSearch arabicSearch NODE_FIELDS WAY_FIELDS
    "regular" ⟨"way", [("id", "w1")], [], ["n1", "n2"]⟩
    [("id", some "w1"), ("user", none), ("uid", none), ("version", none),
     ("changeset", none), ("timestamp", none)]
    [⟨some "w1", "n1", 0⟩, ⟨some "w1", "n2", 1⟩]
    []
    (by decide)

/-- C7: for every retained sub-tag, the emitted row namespace and local key
are determined by the namespace-split pattern on the raw key: when the key
decomposes as a nonempty lowercase-or-underscore segment, a colon and a
lowercase-or-underscore continuation, the row carries that segment as its
type and the remainder after the first colon as its key; otherwise the
type is the default label regular and the key is the raw key unchanged. -/
theorem tag_namespace_split (problem_chars arabic_chars : List Char → Bool)
    (elemId : Option String) (k v : String) (row : TagRow)
    (h : nodeProcessTag problem_chars arabic_chars "regular" elemId k v = some row) :
    (∀ ns c rest, k.data = ns ++ ':' :: c :: rest → ns ≠ [] →
        (∀ x ∈ ns, isLC x = true) → isLC c = true →
        row.type = String.mk ns ∧ row.key = String.mk (c :: rest)) ∧
    ((¬ ∃ ns c rest, k.data = ns ++ ':' :: c :: rest ∧ ns ≠ [] ∧
        (∀ x ∈ ns, isLC x = true) ∧ isLC c = true) →
        row.type = "regular" ∧ row.key = k) := by
  unfold nodeProcessTag at h
  by_cases hp : problem_chars k.data = true
  · rw [if_pos hp] at h
    exact absurd h (by simp)
  · rw [if_neg hp] at h
    by_cases ha : arabic_chars k.data = true
    · rw [if_pos ha] at h
      exact absurd h (by simp)
    · rw [if_neg ha] at h
      by_cases hl : lowerColonSearch k.data = true
      · rw [if_pos hl, Option.some.injEq] at h
        constructor
        · intro ns c rest hk hne hns hc
          have hb := beforeColon_afterColon ns c rest hns
          rw [← h]
          refine ⟨?_, ?_⟩
          · show String.mk (beforeColon k.data) = String.mk ns
            rw [hk, hb.1]
          · show String.mk (afterColon k.data) = String.mk (c :: rest)
            rw [hk, hb.2]
        · intro hno
          exact absurd ((lowerColonSearch_iff k.data).mp hl)
            (by simpa using hno)
      · rw [if_neg hl, Option.some.injEq] at h
        constructor
        · intro ns c rest hk hne hns hc
          exact absurd ((lowerColonSearch_iff k.data).mpr ⟨ns, c, rest, hk, hne, hns, hc⟩) hl
        · intro _
          rw [← h]
          exact ⟨rfl, rfl⟩

/-- Witness for C7 at the retained key addr-colon-housenumber. -/
theorem tag_namespace_split_witness :
    (⟨some "1", "housenumber", "7", "addr"⟩ : TagRow).type = String.mk "addr".data ∧
    (⟨some "1", "housenumber", "7", "addr"⟩ : TagRow).key
      = String.mk ('h' :: "ousenumber".data) :=
  (tag_namespace_split problemCharsSearch arabicSearch (some "1") "addr:housenumber" "7"
      ⟨some "1", "housenumber", "7", "addr"⟩ (by decide)).1
    "addr".data 'h' "ousenumber".data (by decide) (by decide) (by decide) (by decide)

/-- C9: with the fixed well-formed mappings and canonical lists of this
program, no cleaning operation and no step of tag reshaping raises: every
fallible operation (dictionary subscripts, the two-target split unpacking)
made explicit in the exception-modelling variants succeeds on every input
string, and the result is the plain total function value (pass-through or
the null-marker). -/
theorem cleaners_never_raise (v k : String) (elemId : Option String) :
    cleanValueE mapping_building v = some (clean_value mapping_building v) ∧
    cleanValueE mapping_surface v = some (clean_value mapping_surface v) ∧
    cleanStreetNameE mapping_street_name expected_street_name v
      = some (clean_street_name mapping_street_name expected_street_name v) ∧
    cleanCityNameE mapping_city expected_cities v
      = some (clean_city_name mapping_city expected_cities v) ∧
    nodeProcessTagE problemCharsSearch arabicSearch "regular" elemId k v
      = some (nodeProcessTag problemCharsSearch arabicSearch "regular" elemId k v) :=
  ⟨cleanValueE_eq _ _, cleanValueE_eq _ _,
   cleanStreetNameE_eq _ _ (by decide) _,
   cleanCityNameE_eq _ _ _,
   nodeProcessTagE_eq _ _ _ _ _ _⟩

/-- C10: the tag-row construction of the node branch and of the way branch
of `shape_element` agree on every sub-tag: at the default problem-character
pattern (the way branch reads the module-level pattern where the node
branch reads its parameter) both either skip the tag or emit the identical
row. -/
theorem node_way_tag_branches_agree (arabic_chars : List Char → Bool)
    (default_tag_type : String) (elemId : Option String) (k v : String) :
    nodeProcessTag problemCharsSearch arabic_chars default_tag_type elemId k v
      = wayProcessTag arabic_chars default_tag_type elemId k v := rfl

end OSM
